import Mathlib

/-!
# SkywarnPlus core — verification of the natural-language specification

This file shallowly embeds the decision core of the SkywarnPlus repository
(`src/src/alert_processor.py`, `src/src/skywarnplus.py`,
`src/src/state_manager.py`, `src/src/api_client.py`, `src/src/constants.py`)
and settles the frozen claims about it.

Modelling conventions:
* Python dicts become association lists `List (String × _)` (insertion
  ordered, unique keys where the source guarantees it); Python sets become
  `Finset`.
* Machine integers are `Nat`/`Int` (severities are small naturals).
* Fallible code returns `Except`; a raised Python exception is an `.error`.
* Python dataclass instances (`AlertData`) stored inside otherwise
  JSON-shaped state are modelled explicitly, because `json.dump` cannot
  serialize them and subscripting them raises `TypeError`; both behaviours
  are observable in the repository's control flow.
-/

namespace SkywarnPlus

/-- Association-list lookup with decidable string equality (Python `dict`
lookup / `dict.get`). -/
def lookupA {β : Type} (k : String) : List (String × β) → Option β
  | [] => none
  | p :: l => if p.1 = k then some p.2 else lookupA k l

/-- Python `key in dict`. -/
def memA {β : Type} (k : String) (l : List (String × β)) : Bool :=
  (lookupA k l).isSome

/-- The keys of an association list, in insertion order. -/
def keysA {β : Type} (l : List (String × β)) : List String :=
  l.map Prod.fst

@[simp] theorem lookupA_nil {β : Type} (k : String) : lookupA (β := β) k [] = none := rfl

@[simp] theorem lookupA_cons {β : Type} (k : String) (p : String × β) (l : List (String × β)) :
    lookupA k (p :: l) = if p.1 = k then some p.2 else lookupA k l := rfl

theorem lookupA_isSome_iff_mem_keys {β : Type} (k : String) (l : List (String × β)) :
    (lookupA k l).isSome ↔ k ∈ keysA l := by
  induction l with
  | nil => simp [keysA]
  | cons p l ih =>
    by_cases h : p.1 = k
    · simp [keysA, h]
    · simp [keysA, h, ih, Ne.symm h]

theorem lookupA_eq_some_of_nodup {β : Type} {l : List (String × β)} {k : String} {v : β}
    (hnd : (keysA l).Nodup) (hm : (k, v) ∈ l) : lookupA k l = some v := by
  induction l with
  | nil => simp at hm
  | cons p l ih =>
    have hnd2 : (p.1 :: keysA l).Nodup := by simpa [keysA] using hnd
    rcases List.mem_cons.mp hm with h | h
    · rw [← h]; simp
    · have hk : k ∈ keysA l := List.mem_map.mpr ⟨(k, v), h, rfl⟩
      have hne : ¬ p.1 = k := fun e => (List.nodup_cons.mp hnd2).1 (e ▸ hk)
      simp [hne, ih (List.nodup_cons.mp hnd2).2 h]

/-! ## Data model (`src/src/data_types.py`) -/

/-- Model of `data_types.AlertData`: one canonical alert record (a Python
`@dataclass`). -/
structure AlertData where
  county_code : String
  severity : Nat
  description : String
  end_time_utc : String
  event : String
  headline : Option String := none
  instruction : Option String := none
deriving DecidableEq, Repr

/-- Model of `AlertType = str`: the event name used as grouping key. -/
abbrev AlertType := String

/-- A snapshot as built inside a cycle: ordered mapping AlertType →
list of `AlertData` records (`OrderedDict[str, List[AlertData]]`). -/
abbrev Snapshot := List (AlertType × List AlertData)

/-! ## Severity resolution (`src/src/constants.py`, `AlertProcessor._determine_severity`) -/

/-- Model of `constants.API_SEVERITY_MAPPING`, with `AlertSeverity` enum values
inlined (EXTREME = 4, SEVERE = 3, MODERATE = 2, MINOR = 1, UNKNOWN = 0). -/
def API_SEVERITY_MAPPING : List (String × Nat) :=
  [("Extreme", 4), ("Severe", 3), ("Moderate", 2), ("Minor", 1), ("Unknown", 0)]

/-- Model of `constants.WORD_SEVERITY_MAPPING`, in source (insertion) order. -/
def WORD_SEVERITY_MAPPING : List (String × Nat) :=
  [("Warning", 4), ("Watch", 3), ("Advisory", 2), ("Statement", 1)]

/-- Python `needle in haystack` on strings: substring containment. -/
def strContains (hay needle : String) : Bool :=
  hay.data.tails.any (fun t => needle.data.isPrefixOf t)

/-- The two fields of the NWS `properties` object consumed by
`_determine_severity`: `properties.get('severity')` (absent ⇒ `none`) and
`properties.get('event', '')` (already defaulted to `""`). -/
structure AlertProperties where
  severity : Option String
  event : String

/-- Model of `AlertProcessor._determine_severity`: provider severity first (via
`API_SEVERITY_MAPPING` membership), then the first matching keyword of
`WORD_SEVERITY_MAPPING` as a substring of the event name, else 0. -/
def determine_severity (props : AlertProperties) : Nat :=
  match props.severity.bind (fun s => lookupA s API_SEVERITY_MAPPING) with
  | some v => v
  | none =>
    match WORD_SEVERITY_MAPPING.find? (fun p => strContains props.event p.1) with
    | some p => p.2
    | none => 0

/-- The claim's own description of severity resolution (C7), written from
the spec's words: fixed table on the provider severity when it is a key;
otherwise the first keyword of Warning→4, Watch→3, Advisory→2, Statement→1
occurring as a substring of the event name; otherwise 0. -/
def claim_severity (props : AlertProperties) : Nat :=
  if props.severity = some "Extreme" then 4
  else if props.severity = some "Severe" then 3
  else if props.severity = some "Moderate" then 2
  else if props.severity = some "Minor" then 1
  else if props.severity = some "Unknown" then 0
  else if strContains props.event "Warning" then 4
  else if strContains props.event "Watch" then 3
  else if strContains props.event "Advisory" then 2
  else if strContains props.event "Statement" then 1
  else 0

/-- Claim C7: `_determine_severity` returns the fixed-table value when the
provider-supplied severity is one of the table's keys, otherwise the value
for the first keyword (Warning, Watch, Advisory, Statement, in that order)
occurring as a substring of the event name, otherwise 0. -/
theorem determine_severity_eq_claim (props : AlertProperties) :
    determine_severity props = claim_severity props := by
  rcases props with ⟨sev, event⟩
  have hword : (match WORD_SEVERITY_MAPPING.find? (fun p => strContains event p.1) with
      | some p => p.2
      | none => 0) =
      (if strContains event "Warning" then 4
       else if strContains event "Watch" then 3
       else if strContains event "Advisory" then 2
       else if strContains event "Statement" then 1
       else 0) := by
    by_cases h1 : strContains event "Warning" <;>
      by_cases h2 : strContains event "Watch" <;>
        by_cases h3 : strContains event "Advisory" <;>
          by_cases h4 : strContains event "Statement" <;>
            simp [WORD_SEVERITY_MAPPING, List.find?_cons, h1, h2, h3, h4]
  unfold determine_severity claim_severity
  rcases sev with _ | s
  · simpa using hword
  · simp only [Option.some_bind, Option.some.injEq]
    by_cases e1 : s = "Extreme"
    · subst e1; simp [API_SEVERITY_MAPPING]
    · by_cases e2 : s = "Severe"
      · subst e2; simp [API_SEVERITY_MAPPING]
      · by_cases e3 : s = "Moderate"
        · subst e3; simp [API_SEVERITY_MAPPING]
        · by_cases e4 : s = "Minor"
          · subst e4; simp [API_SEVERITY_MAPPING]
          · by_cases e5 : s = "Unknown"
            · subst e5; simp [API_SEVERITY_MAPPING]
            · simp only [API_SEVERITY_MAPPING, lookupA_cons, lookupA_nil,
                if_neg (fun h : "Extreme" = s => e1 h.symm),
                if_neg (fun h : "Severe" = s => e2 h.symm),
                if_neg (fun h : "Moderate" = s => e3 h.symm),
                if_neg (fun h : "Minor" = s => e4 h.symm),
                if_neg (fun h : "Unknown" = s => e5 h.symm),
                if_neg e1, if_neg e2, if_neg e3, if_neg e4, if_neg e5]
              exact hword

/-! ## Sorting by severity (`AlertProcessor.sort_alerts_by_severity`) -/

/-- Python `max(alert.severity for alert in alert_list)`. On `[]` Python
raises `ValueError`; the source only evaluates it on the non-empty record
lists of a snapshot, where this fold agrees with the generator `max`. -/
def maxSeverity (l : List AlertData) : Nat :=
  l.foldl (fun m a => Nat.max m a.severity) 0

/-- The key order of `alert_severities.sort(key=lambda x: x[1], reverse=True)`.
Python's `list.sort` is stable, and `reverse=True` keeps equal-key elements
in input order; `List.insertionSort` with this relation (place an element
before the first element whose key is ≤ its own) is exactly that stable
descending sort. -/
def sevGE (x y : AlertType × Nat) : Prop := y.2 ≤ x.2

instance : DecidableRel sevGE := fun x y => Nat.decLe y.2 x.2

instance : IsTotal (AlertType × Nat) sevGE := ⟨fun a b => Nat.le_total b.2 a.2⟩

instance : IsTrans (AlertType × Nat) sevGE := ⟨fun _ _ _ hab hbc => Nat.le_trans hbc hab⟩

/-- Model of `AlertProcessor.sort_alerts_by_severity`: build `(alert_type, max_severity)`
pairs, stable-sort them by severity descending, rebuild the ordered mapping
from the original dict. -/
def sort_alerts_by_severity (alerts : Snapshot) : Snapshot :=
  let alert_severities := alerts.map (fun p => (p.1, maxSeverity p.2))
  let sorted := List.insertionSort sevGE alert_severities
  sorted.map (fun p => (p.1, (lookupA p.1 alerts).getD []))

theorem filter_orderedInsert_sevGE (n : Nat) (x : AlertType × Nat) (l : List (AlertType × Nat))
    (hl : l.Sorted sevGE) :
    (List.orderedInsert sevGE x l).filter (fun p => p.2 = n) =
      if x.2 = n then x :: l.filter (fun p => p.2 = n)
      else l.filter (fun p => p.2 = n) := by
  induction l with
  | nil =>
    by_cases h : x.2 = n <;> simp [List.orderedInsert, h]
  | cons y ys ih =>
    have hys : ys.Sorted sevGE := (List.pairwise_cons.mp hl).2
    rw [List.orderedInsert]
    by_cases hxy : sevGE x y
    · rw [if_pos hxy]
      by_cases hx : x.2 = n <;> simp [List.filter_cons, hx]
    · rw [if_neg hxy]
      have hlt : x.2 < y.2 := Nat.lt_of_not_le hxy
      by_cases hx : x.2 = n
      · have hy : ¬ y.2 = n := by omega
        simp [List.filter_cons, hy, hx, ih hys]
      · simp [List.filter_cons, hx, ih hys]

theorem filter_insertionSort_sevGE (n : Nat) (l : List (AlertType × Nat)) :
    (List.insertionSort sevGE l).filter (fun p => p.2 = n) = l.filter (fun p => p.2 = n) := by
  induction l with
  | nil => rfl
  | cons x l ih =>
    rw [List.insertionSort,
      filter_orderedInsert_sevGE n x _ (List.sorted_insertionSort sevGE l)]
    by_cases hx : x.2 = n <;> simp [List.filter_cons, hx, ih]

theorem lookupA_map_keyfun {β γ : Type} (f : String → γ) (l : List (String × β)) (t : String) :
    lookupA t (l.map (fun p => (p.1, f p.1))) =
      if (lookupA t l).isSome then some (f t) else none := by
  induction l with
  | nil => simp
  | cons p l ih =>
    by_cases h : p.1 = t
    · simp [h]
    · simp [h, ih]

theorem keysA_map_keyfun {β γ : Type} (f : String → γ) (l : List (String × β)) :
    keysA (l.map (fun p => (p.1, f p.1))) = keysA l := by
  simp [keysA, Function.comp]

theorem keysA_map_fst {β γ : Type} (g : String × β → γ) (l : List (String × β)) :
    keysA (l.map (fun p => (p.1, g p))) = keysA l := by
  simp [keysA, Function.comp]

/-- Every pair produced by the severity projection comes from a binding of
the input mapping; under distinct keys its key looks up exactly that
binding. -/
theorem sevpair_lookup (alerts : Snapshot) (hnd : (keysA alerts).Nodup)
    {p : AlertType × Nat} (hp : p ∈ alerts.map (fun q => (q.1, maxSeverity q.2))) :
    ∃ l0, lookupA p.1 alerts = some l0 ∧ maxSeverity l0 = p.2 := by
  rcases List.mem_map.mp hp with ⟨q, hq, rfl⟩
  exact ⟨q.2, lookupA_eq_some_of_nodup hnd (by simpa using hq), rfl⟩

/-- Claim C6: For every alert mapping with distinct AlertTypes and at least
one record per type, `sort_alerts_by_severity` binds exactly the same
AlertTypes to the same record lists, orders them by descending maximum
record severity, and equal-severity AlertTypes retain their first-seen
(input) order. -/
theorem sort_alerts_by_severity_spec (alerts : Snapshot)
    (hnd : (keysA alerts).Nodup) (hne : ∀ p ∈ alerts, p.2 ≠ []) :
    (∀ t, lookupA t (sort_alerts_by_severity alerts) = lookupA t alerts) ∧
    (keysA (sort_alerts_by_severity alerts)).Perm (keysA alerts) ∧
    (sort_alerts_by_severity alerts).Sorted (fun p q => maxSeverity q.2 ≤ maxSeverity p.2) ∧
    (∀ n, ((sort_alerts_by_severity alerts).filter (fun p => maxSeverity p.2 = n)).map Prod.fst =
      (alerts.filter (fun p => maxSeverity p.2 = n)).map Prod.fst) := by
  have _hne := hne
  set sevs := alerts.map (fun p => (p.1, maxSeverity p.2)) with hsevs
  set sorted := List.insertionSort sevGE sevs with hsorted
  have hperm : sorted.Perm sevs := List.perm_insertionSort sevGE sevs
  have hkeys_sevs : keysA sevs = keysA alerts := by
    rw [hsevs]; exact keysA_map_fst _ alerts
  have hout : sort_alerts_by_severity alerts =
      sorted.map (fun p => (p.1, (lookupA p.1 alerts).getD [])) := rfl
  have hkeys_out : keysA (sort_alerts_by_severity alerts) = keysA sorted := by
    rw [hout]; exact keysA_map_keyfun (fun s => (lookupA s alerts).getD []) sorted
  have hkeys_perm : (keysA (sort_alerts_by_severity alerts)).Perm (keysA alerts) := by
    rw [hkeys_out, ← hkeys_sevs]
    exact hperm.map Prod.fst
  have hmem_sorted : ∀ p ∈ sorted, ∃ l0, lookupA p.1 alerts = some l0 ∧ maxSeverity l0 = p.2 :=
    fun p hp => sevpair_lookup alerts hnd (hperm.subset hp)
  refine ⟨?_, hkeys_perm, ?_, ?_⟩
  · intro t
    rw [hout, lookupA_map_keyfun (fun s => (lookupA s alerts).getD []) sorted t]
    by_cases ht : (lookupA t alerts).isSome
    · have htk : t ∈ keysA sorted := by
        have : t ∈ keysA sevs := hkeys_sevs ▸ (lookupA_isSome_iff_mem_keys t alerts).mp ht
        exact ((hperm.map Prod.fst).mem_iff).mpr this
      rcases Option.isSome_iff_exists.mp ht with ⟨v, hv⟩
      rw [if_pos (by rwa [lookupA_isSome_iff_mem_keys]), hv]
      simp [hv]
    · have htk : ¬ t ∈ keysA sorted := by
        intro hmem
        have : t ∈ keysA sevs := ((hperm.map Prod.fst).mem_iff).mp hmem
        exact ht ((lookupA_isSome_iff_mem_keys t alerts).mpr (hkeys_sevs ▸ this))
      rw [if_neg (by rwa [lookupA_isSome_iff_mem_keys]),
        Option.not_isSome_iff_eq_none.mp ht]
  · rw [hout, List.Sorted, List.pairwise_map]
    have hsortedS : sorted.Sorted sevGE := List.sorted_insertionSort sevGE sevs
    refine hsortedS.imp_of_mem ?_
    intro p q hp hq hpq
    rcases hmem_sorted p hp with ⟨lp, hlp, hmp⟩
    rcases hmem_sorted q hq with ⟨lq, hlq, hmq⟩
    simpa [hlp, hlq, hmp, hmq] using hpq
  · intro n
    rw [hout, List.filter_map]
    have hcongr : sorted.filter
        ((fun p => decide (maxSeverity p.2 = n)) ∘ (fun p => (p.1, (lookupA p.1 alerts).getD []))) =
        sorted.filter (fun p => p.2 = n) := by
      apply List.filter_congr
      intro p hp
      rcases hmem_sorted p hp with ⟨lp, hlp, hmp⟩
      simp [Function.comp, hlp, hmp]
    rw [hcongr, filter_insertionSort_sevGE n sevs, hsevs, List.filter_map]
    have hcongr2 : alerts.filter ((fun p => decide (p.2 = n)) ∘ (fun q => (q.1, maxSeverity q.2))) =
        alerts.filter (fun p => maxSeverity p.2 = n) := by
      apply List.filter_congr
      intro p _
      simp [Function.comp]
    rw [hcongr2]
    simp

/-! ## Records as the dynamic code sees them, and change detection
(`AlertProcessor.detect_county_changes`) -/

/-- One element of a snapshot record list as it reaches
`detect_county_changes` or the persisted state: either a JSON-loaded dict
— the core only ever subscripts its string field `"county_code"`, so the
embedding keeps the string-valued fields — or an `AlertData` dataclass
instance stored by `run`; subscripting a dataclass raises `TypeError` and
`json.dump` cannot serialize it. -/
inductive PyRec where
  | dict (fields : List (String × String))
  | obj (a : AlertData)
deriving DecidableEq, Repr

/-- A snapshot at the level the state and `detect_county_changes` see it:
ordered mapping AlertType → list of records. -/
abbrev PySnap := List (String × List PyRec)

/-- The Python exceptions the embedding distinguishes. -/
inductive PyErr where
  | typeError
  | keyError
  | valueError
  | fileIOError
deriving DecidableEq, Repr

/-- Python `info["county_code"]`: dict lookup (KeyError when missing),
TypeError on a dataclass instance. -/
def subscrCounty : PyRec → Except PyErr String
  | .dict fs =>
    match lookupA "county_code" fs with
    | some v => .ok v
    | none => .error .keyError
  | .obj _ => .error .typeError

/-- Left-to-right evaluation of the county-code set comprehension. -/
def county_codes_go (acc : Finset String) : List PyRec → Except PyErr (Finset String)
  | [] => .ok acc
  | r :: rest =>
    match subscrCounty r with
    | .ok c => county_codes_go (insert c acc) rest
    | .error e => .error e

/-- The set comprehension over `info["county_code"]` used twice in
`detect_county_changes`. -/
def county_codes_of (l : List PyRec) : Except PyErr (Finset String) :=
  county_codes_go ∅ l

/-- Model of `re.sub` of the cleaning pattern: removes every double quote and brace
character (character codes 34, 123 and 125) from a county code. -/
def cleanCode (s : String) : String :=
  ⟨s.data.filter (fun c => ¬ (c = Char.ofNat 123 ∨ c = Char.ofNat 125 ∨ c = Char.ofNat 34))⟩

/-- One value of the `changes_detected` dict: the old, added and removed
county sets recorded for a changed AlertType. -/
structure ChangeEntry where
  name : String
  old : Finset String
  added : Finset String
  removed : Finset String
deriving DecidableEq

/-- The result dict of `detect_county_changes`. -/
structure Changes where
  changes_detected : List ChangeEntry
  alerts_with_changed_counties : PySnap
deriving DecidableEq

/-- Model of `AlertProcessor.detect_county_changes`: iterate the current mapping in
order, skip AlertTypes absent from the previous mapping, build the two
county-code sets, diff them, clean the diffs, and record the AlertType when
either cleaned diff is non-empty. A raised exception propagates. -/
def detect_county_changes (old_alerts : PySnap) : PySnap → Except PyErr Changes
  | [] => .ok ⟨[], []⟩
  | (alert_name, alert_info) :: rest =>
    if memA alert_name old_alerts then
      match county_codes_of ((lookupA alert_name old_alerts).getD []) with
      | .error e => .error e
      | .ok old_county_codes =>
        match county_codes_of alert_info with
        | .error e => .error e
        | .ok new_county_codes =>
          let added_counties := (new_county_codes \ old_county_codes).image cleanCode
          let removed_counties := (old_county_codes \ new_county_codes).image cleanCode
          match detect_county_changes old_alerts rest with
          | .error e => .error e
          | .ok tail =>
            if added_counties ≠ ∅ ∨ removed_counties ≠ ∅ then
              .ok ⟨⟨alert_name, old_county_codes, added_counties, removed_counties⟩ ::
                    tail.changes_detected,
                  (alert_name, alert_info) :: tail.alerts_with_changed_counties⟩
            else .ok tail
    else detect_county_changes old_alerts rest

/-- A record whose subscripting succeeds (a dict with a county code). -/
def recOk (r : PyRec) : Bool :=
  match subscrCounty r with
  | .ok _ => true
  | .error _ => false

/-- All records of all bindings subscript successfully. -/
def snapOk (s : PySnap) : Bool :=
  s.all (fun p => p.2.all recOk)

/-- Total counterpart of the county-code comprehension, used to state
properties (it agrees with `county_codes_of` on well-formed lists). -/
def countyFinset_go (acc : Finset String) : List PyRec → Finset String
  | [] => acc
  | r :: rest =>
    countyFinset_go
      (match subscrCounty r with
       | .ok c => insert c acc
       | .error _ => acc) rest

/-- The set of contributing county codes of a record list. -/
def countyFinset (l : List PyRec) : Finset String := countyFinset_go ∅ l

theorem county_codes_go_ok (l : List PyRec) (h : ∀ r ∈ l, recOk r = true) (acc : Finset String) :
    county_codes_go acc l = .ok (countyFinset_go acc l) := by
  induction l generalizing acc with
  | nil => rfl
  | cons r rest ih =>
    have hr : recOk r = true := h r (by simp)
    unfold recOk at hr
    rcases hc : subscrCounty r with e | c
    · rw [hc] at hr; simp at hr
    · rw [county_codes_go, countyFinset_go, hc]
      exact ih (fun x hx => h x (by simp [hx])) _

theorem county_codes_of_ok (l : List PyRec) (h : ∀ r ∈ l, recOk r = true) :
    county_codes_of l = .ok (countyFinset l) :=
  county_codes_go_ok l h ∅

theorem lookupA_mem {β : Type} {l : List (String × β)} {k : String} {v : β}
    (h : lookupA k l = some v) : (k, v) ∈ l := by
  induction l with
  | nil => simp at h
  | cons p l ih =>
    by_cases hp : p.1 = k
    · simp [hp] at h
      have : (k, v) = p := by
        rcases p with ⟨a, b⟩
        simp at hp h
        simp [hp, h]
      rw [this]
      exact List.mem_cons_self p l
    · simp [hp] at h
      exact List.mem_cons_of_mem _ (ih h)

theorem snapOk_lookup {s : PySnap} (hs : snapOk s = true) (t : String) :
    ∀ r ∈ (lookupA t s).getD [], recOk r = true := by
  rcases h : lookupA t s with _ | v
  · simp
  · intro r hr
    have hm : (t, v) ∈ s := lookupA_mem h
    have := (List.all_eq_true.mp hs) (t, v) hm
    exact List.all_eq_true.mp this r (by simpa using hr)

theorem memA_cons {β : Type} (t k : String) (v : β) (l : List (String × β)) :
    memA t ((k, v) :: l) = if k = t then true else memA t l := by
  by_cases h : k = t <;> simp [memA, h]

/-- Claim C8: `detect_county_changes` reports an AlertType as changed iff it
is present in both the previous and the current snapshot and its set of
contributing county codes differs (added = current minus previous, removed
= previous minus current, at least one non-empty); AlertTypes that newly
appear in, or fully disappear from, the current snapshot are never reported
as changed. Stated for well-formed (dict-record) snapshots — the inputs the
function's own signature `Dict[str, List[Dict]]` describes. -/
theorem detect_county_changes_spec (old_alerts new_alerts : PySnap)
    (hold : snapOk old_alerts = true) (hnew : snapOk new_alerts = true)
    (hnd : (keysA new_alerts).Nodup) :
    ∃ ch, detect_county_changes old_alerts new_alerts = .ok ch ∧
      ∀ t : String,
        t ∈ ch.changes_detected.map ChangeEntry.name ↔
          (memA t old_alerts = true ∧ memA t new_alerts = true ∧
            (countyFinset ((lookupA t new_alerts).getD []) \
                countyFinset ((lookupA t old_alerts).getD []) ≠ ∅ ∨
             countyFinset ((lookupA t old_alerts).getD []) \
                countyFinset ((lookupA t new_alerts).getD []) ≠ ∅)) := by
  induction new_alerts with
  | nil =>
    refine ⟨⟨[], []⟩, rfl, ?_⟩
    intro t
    simp [memA]
  | cons p rest ih =>
    rcases p with ⟨name, info⟩
    have hnd' : (keysA rest).Nodup := (List.nodup_cons.mp (by simpa [keysA] using hnd)).2
    have hname : ¬ name ∈ keysA rest := (List.nodup_cons.mp (by simpa [keysA] using hnd)).1
    have hinfo : ∀ r ∈ info, recOk r = true := by
      have := (List.all_eq_true.mp hnew) (name, info) (by simp)
      exact fun r hr => List.all_eq_true.mp this r hr
    have hrest : snapOk rest = true := by
      apply List.all_eq_true.mpr
      intro q hq
      exact (List.all_eq_true.mp hnew) q (by simp [hq])
    rcases ih hrest hnd' with ⟨chr, hchr, hiff⟩
    by_cases hm : memA name old_alerts = true
    · have holdrec : ∀ r ∈ (lookupA name old_alerts).getD [], recOk r = true :=
        snapOk_lookup hold name
      have holdc : county_codes_of ((lookupA name old_alerts).getD []) =
          .ok (countyFinset ((lookupA name old_alerts).getD [])) :=
        county_codes_of_ok _ holdrec
      have hnewc : county_codes_of info = .ok (countyFinset info) :=
        county_codes_of_ok _ hinfo
      set oldC := countyFinset ((lookupA name old_alerts).getD []) with holdC
      set newC := countyFinset info with hnewC
      have hunf : detect_county_changes old_alerts ((name, info) :: rest) =
          (if (newC \ oldC).image cleanCode ≠ ∅ ∨ (oldC \ newC).image cleanCode ≠ ∅ then
            .ok ⟨⟨name, oldC, (newC \ oldC).image cleanCode, (oldC \ newC).image cleanCode⟩ ::
                  chr.changes_detected,
                (name, info) :: chr.alerts_with_changed_counties⟩
          else .ok chr) := by
        rw [detect_county_changes, if_pos hm, holdc, hnewc, hchr]
      by_cases hcond : (newC \ oldC).image cleanCode ≠ ∅ ∨ (oldC \ newC).image cleanCode ≠ ∅
      · refine ⟨_, by rw [hunf, if_pos hcond], ?_⟩
        intro t
        by_cases ht : name = t
        · subst ht
          simp only [List.map_cons, List.mem_cons, true_or, true_iff]
          refine ⟨hm, by simp [memA_cons], ?_⟩
          have hlke : (lookupA name ((name, info) :: rest)).getD [] = info := by simp
          rw [hlke, ← hnewC, ← holdC]
          simpa [Ne, Finset.image_eq_empty] using hcond
        · have hlk : lookupA t ((name, info) :: rest) = lookupA t rest := by
            simp [ht]
          simp only [List.map_cons, List.mem_cons, hlk, memA_cons, if_neg ht]
          rw [hiff t]
          constructor
          · rintro (h | h)
            · exact absurd h.symm ht
            · exact h
          · intro h
            exact Or.inr h
      · refine ⟨_, by rw [hunf, if_neg hcond], ?_⟩
        intro t
        by_cases ht : name = t
        · subst ht
          constructor
          · intro hmem
            have := ((hiff name).mp hmem).2.1
            exact absurd ((lookupA_isSome_iff_mem_keys name rest).mp this) hname
          · rintro ⟨-, -, hdiff⟩
            exfalso
            apply hcond
            have hlke : (lookupA name ((name, info) :: rest)).getD [] = info := by simp
            rw [hlke, ← hnewC, ← holdC] at hdiff
            simpa [Ne, Finset.image_eq_empty] using hdiff
        · have hlk : lookupA t ((name, info) :: rest) = lookupA t rest := by
            simp [ht]
          simp only [hlk, memA_cons, if_neg ht]
          exact hiff t
    · have hunf : detect_county_changes old_alerts ((name, info) :: rest) =
          detect_county_changes old_alerts rest := by
        rw [detect_county_changes, if_neg hm]
      refine ⟨chr, by rw [hunf, hchr], ?_⟩
      intro t
      by_cases ht : name = t
      · subst ht
        constructor
        · intro hmem
          exact absurd ((hiff name).mp hmem).1 hm
        · rintro ⟨h1, -, -⟩
          exact absurd h1 hm
      · have hlk : lookupA t ((name, info) :: rest) = lookupA t rest := by
          simp [ht]
        simp only [hlk, memA_cons, if_neg ht]
        exact hiff t

/-! ## State persistence (`src/src/state_manager.py`) -/

/-- A Python value as it can occur in the state blob: the JSON shapes
(strings, numbers, lists, string-keyed dicts) plus the two non-serializable
shapes the repository actually puts there — Python sets (which `save_state`
converts) and `AlertData` dataclass instances (which `run` stores). -/
inductive PyVal where
  | str : String → PyVal
  | int : Int → PyVal
  | list : List PyVal → PyVal
  | dict : List (String × PyVal) → PyVal
  | set : List PyVal → PyVal
  | obj : AlertData → PyVal

mutual

/-- Whether `json.dump` can serialize the value; on a `set` or a dataclass
instance it raises `TypeError`. -/
def jsonable : PyVal → Bool
  | .str _ => true
  | .int _ => true
  | .list l => jsonableList l
  | .dict l => jsonableDict l
  | .set _ => false
  | .obj _ => false

/-- All elements serializable. -/
def jsonableList : List PyVal → Bool
  | [] => true
  | v :: l => jsonable v && jsonableList l

/-- All dict values serializable. -/
def jsonableDict : List (String × PyVal) → Bool
  | [] => true
  | p :: l => jsonable p.2 && jsonableDict l

end

/-- Model of `StateManager`'s mutable fields together with the contents of its data
file. `disk` is the parsed value of the JSON text on disk (`none` =
missing file): Python's `json` module round-trips dicts, lists, strings
and numbers faithfully, and `flush_state` raises before writing anything
non-serializable, so the file is abstracted by the value it encodes. -/
structure StateManager where
  cache : List (String × PyVal)
  dirty : Bool
  disk : Option (List (String × PyVal))

/-- The fresh state `load_state` builds when the data file is missing, in
source key order. -/
def defaultState : List (String × PyVal) :=
  [("last_alerts", .dict []),
   ("last_sayalert", .dict []),
   ("last_tailmessage", .dict []),
   ("last_allclear", .dict []),
   ("last_alert_script", .dict [])]

/-- Model of `StateManager.load_state`: read the file (or create the default state
in memory), refresh the cache, clear the dirty flag, and return the
state. -/
def load_state (sm : StateManager) : List (String × PyVal) × StateManager :=
  let state := sm.disk.getD defaultState
  (state, { sm with cache := state, dirty := false })

/-- The set→list conversion `save_state` applies to a state value:
a top-level set becomes a list, a set one level inside a dict value becomes
a list, everything else is kept as is. -/
def convertValue : PyVal → PyVal
  | .set l => .list l
  | .dict d => .dict (d.map (fun p =>
      (p.1, match p.2 with
            | .set l => PyVal.list l
            | v => v)))
  | v => v

/-- Model of `StateManager.save_state`: convert sets, replace the cache, mark it
dirty. No file I/O happens here. -/
def save_state (state : List (String × PyVal)) (sm : StateManager) : StateManager :=
  { sm with cache := state.map (fun p => (p.1, convertValue p.2)), dirty := true }

/-- Model of `StateManager.flush_state`: skip when clean; otherwise `json.dump` the
cache to a temporary file and atomically replace the data file.
`json.dump` raises `TypeError` on a non-serializable cache, and `ioFails`
models an OS-level write failure; either is logged, the temporary file is
removed, and a `FileIOError` is raised, leaving the data file and the
dirty flag unchanged. -/
def flush_state (ioFails : Bool) (sm : StateManager) : Except PyErr StateManager :=
  if sm.dirty = false then .ok sm
  else if jsonableDict sm.cache = false then .error .fileIOError
  else if ioFails then .error .fileIOError
  else .ok { sm with disk := some sm.cache, dirty := false }

/-- Model of `SkywarnPlus.cleanup`: flush the state; any exception is caught and
logged, never re-raised (the audio-cache cleanup and API-client close have
no observable effect in this model). -/
def cleanup (ioFails : Bool) (sm : StateManager) : StateManager :=
  match flush_state ioFails sm with
  | .ok sm2 => sm2
  | .error _ => sm

/-! ## The cycle (`src/src/skywarnplus.py`) -/

/-- The configuration switches `run` and its handlers read. -/
structure AppConfig where
  say_alert : Bool
  say_all_clear : Bool

/-- Whether each external call raises when invoked: the alert announcer,
the per-type notification sender, the all-clear announcer, the all-clear
notification sender. These are the collaborators whose exceptions the
handlers catch. -/
structure EffEnv where
  sayAlertsFails : Bool
  notifyFails : Bool
  sayAllClearFails : Bool
  notifyAllClearFails : Bool

/-- The environment in which no external call raises. -/
def okEnv : EffEnv := ⟨false, false, false, false⟩

/-- The cycle's announcement decision: which announcer call was made. -/
inductive Decision where
  | alert
  | allClear
  | none
deriving DecidableEq, Repr

/-- The three state keys the decision core reads and writes. A missing key
and an empty dict are both falsy in Python, so the loaded `state.get`
defaults collapse to the empty snapshot. -/
structure RunState where
  last_alerts : PySnap
  last_sayalert : PySnap
  last_allclear : PySnap
deriving DecidableEq, Repr

/-- Model of `SkywarnPlus._handle_active_alerts`: inside a try/except that logs and
swallows every exception — announce when SayAlert is enabled and
(`changes_detected` is truthy or `last_sayalert` is falsy), record the
snapshot in `last_sayalert` only if the announcement call returned, then
send per-type notifications (no state effect either way). Returns the
updated state and whether the announcer was invoked. -/
def handle_active_alerts (cfg : AppConfig) (env : EffEnv) (st : RunState)
    (alerts : PySnap) (changes : Changes) : RunState × Bool :=
  if cfg.say_alert then
    if changes.changes_detected ≠ [] ∨ st.last_sayalert = [] then
      if env.sayAlertsFails then (st, true)
      else ({ st with last_sayalert := alerts }, true)
    else (st, false)
  else (st, false)

/-- The county list comprehension of `_handle_all_clear`, left to right
over one record list. -/
def counties_go (acc : List String) : List PyRec → Except PyErr (List String)
  | [] => .ok acc
  | r :: rest =>
    match subscrCounty r with
    | .ok c => counties_go (acc ++ [c]) rest
    | .error e => .error e

/-- Model of `counties.extend([alert["county_code"] for alert in alert_list])` over
all bindings of the previous snapshot. -/
def extract_counties (old_alerts : PySnap) : Except PyErr (List String) :=
  old_alerts.foldlM (fun acc p => counties_go acc p.2) []

/-- Model of `SkywarnPlus._handle_all_clear`: inside a try/except that logs and
swallows every exception — when the previous snapshot is truthy and
SayAllClear is enabled, announce all clear, collect the counties, notify,
and set `last_allclear` to the empty dict (skipped if any earlier step
raised). `last_sayalert` is not touched. Returns the updated state and
whether the announcer was invoked. -/
def handle_all_clear (cfg : AppConfig) (env : EffEnv) (st : RunState)
    (old_alerts : PySnap) : RunState × Bool :=
  if old_alerts ≠ [] ∧ cfg.say_all_clear then
    if env.sayAllClearFails then (st, true)
    else
      match extract_counties old_alerts with
      | .error _ => (st, true)
      | .ok _ =>
        if env.notifyAllClearFails then (st, true)
        else ({ st with last_allclear := [] }, true)
  else (st, false)

/-- An `AlertData` record as `run` stores it into a snapshot: the dataclass
instance itself. -/
def objSnap (s : Snapshot) : PySnap :=
  s.map (fun p => (p.1, p.2.map PyRec.obj))

/-- The dict value of a stored snapshot record. -/
def pyOfRec : PyRec → PyVal
  | .dict fs => .dict (fs.map (fun p => (p.1, PyVal.str p.2)))
  | .obj a => .obj a

/-- The dict value of a stored snapshot. -/
def pyOfSnap (s : PySnap) : PyVal :=
  .dict (s.map (fun p => (p.1, PyVal.list (p.2.map pyOfRec))))

/-- The state dict `run` hands to `save_state`: the loaded state with
`last_alerts` (always), `last_sayalert` and `last_allclear` (when the
handlers wrote them) replaced; the two keys the core never touches keep
their cold-start value. -/
def stateDictOf (st : RunState) : List (String × PyVal) :=
  [("last_alerts", pyOfSnap st.last_alerts),
   ("last_sayalert", pyOfSnap st.last_sayalert),
   ("last_tailmessage", .dict []),
   ("last_allclear", pyOfSnap st.last_allclear),
   ("last_alert_script", .dict [])]

/-- Model of `SkywarnPlus.run`, from the point where the cycle's filtered, sorted
snapshot is in hand (fetching, parsing, filtering and sorting are
deterministic in the feed data; see `fetch_alerts_for_counties`,
`determine_severity` and `sort_alerts_by_severity`). Change detection runs
first; an exception there is logged and re-raised. Otherwise one handler
runs, `state["last_alerts"]` is set to the snapshot and `save_state` is
called. `cleanup` always runs (the `finally` block), swallowing any flush
failure. -/
def run (cfg : AppConfig) (env : EffEnv) (ioFails : Bool) (sm : StateManager)
    (st : RunState) (sorted_alerts : PySnap) :
    StateManager × Except PyErr (RunState × Decision) :=
  let old_alerts := st.last_alerts
  match detect_county_changes old_alerts sorted_alerts with
  | .error e => (cleanup ioFails sm, .error e)
  | .ok changes =>
    let hr :=
      if sorted_alerts ≠ [] then
        let h := handle_active_alerts cfg env st sorted_alerts changes
        (h.1, if h.2 then Decision.alert else Decision.none)
      else
        let h := handle_all_clear cfg env st old_alerts
        (h.1, if h.2 then Decision.allClear else Decision.none)
    let st3 := { hr.1 with last_alerts := sorted_alerts }
    let sm2 := save_state (stateDictOf st3) sm
    (cleanup ioFails sm2, .ok (st3, hr.2))

/-! ## One whole process (`main.py` runs exactly one cycle per process) -/

/-- Reading a stored record back from a state dict value. -/
def recOfPy : PyVal → Option PyRec
  | .dict fs =>
    (fs.mapM (fun p : String × PyVal =>
      match p.2 with
      | .str s => some (p.1, s)
      | _ => (Option.none : Option (String × String)))).map PyRec.dict
  | .obj a => some (.obj a)
  | _ => Option.none

/-- Reading a stored record list back. -/
def recListOfPy : PyVal → Option (List PyRec)
  | .list l => l.mapM recOfPy
  | _ => Option.none

/-- Reading a stored snapshot back. -/
def snapOfPy : PyVal → Option PySnap
  | .dict l => l.mapM (fun p => (recListOfPy p.2).map (fun rs => (p.1, rs)))
  | _ => Option.none

/-- The `state.get(key, default)` reads of the cycle, as a `RunState`;
`none` when a stored value is not snapshot-shaped (no value this model
stores is). -/
def runStateOf (state : List (String × PyVal)) : Option RunState := do
  let la ← snapOfPy ((lookupA "last_alerts" state).getD (.dict []))
  let ls ← snapOfPy ((lookupA "last_sayalert" state).getD (.dict []))
  let lc ← snapOfPy ((lookupA "last_allclear" state).getD (.dict []))
  pure ⟨la, ls, lc⟩

/-- One whole invocation of the program: construct `SkywarnPlus` (loading
the persisted state from the given disk contents), run one cycle on the
given snapshot, return the new disk contents and the cycle's outcome. -/
def process (cfg : AppConfig) (env : EffEnv) (ioFails : Bool)
    (disk : Option (List (String × PyVal))) (sorted_alerts : PySnap) :
    Option (List (String × PyVal)) × Except PyErr Decision :=
  let ls := load_state ⟨[], false, disk⟩
  match runStateOf ls.1 with
  | Option.none => (disk, .error .typeError)
  | some st =>
    let r := run cfg env ioFails ls.2 st sorted_alerts
    (r.1.disk, r.2.map (fun x => x.2))

/-! ## Zone fetching (`src/src/api_client.py`) -/

/-- Python dict assignment `d[k] = v`: overwrite the existing binding in
place, or append a new one. -/
def dictSet {β : Type} (d : List (String × β)) (k : String) (v : β) : List (String × β) :=
  if memA k d then d.map (fun p => if p.1 = k then (k, v) else p) else d ++ [(k, v)]

/-- Model of `NWSAPIClient.fetch_county_alerts`: one zone's fetch. Every network and
validation outcome — timeout, request exception, unexpected error,
malformed payload — is caught inside the function, which then returns
`(county_code, None)`. `env` maps each county to its fetch outcome: the
validated payload, or `none` for any failure. -/
def fetch_county_alerts {P : Type} (env : String → Option P) (county_code : String) :
    String × Option P :=
  (county_code, env county_code)

/-- Model of `NWSAPIClient.fetch_alerts_for_counties`: a `ThreadPoolExecutor` with
`max_workers = min(len(county_codes), self.max_workers)` — constructing a
pool with zero workers raises `ValueError`, so the empty input list
raises. Otherwise every county is submitted and each completed future's
result is written into `alerts_data[county_code]`. Completion order varies
between runs, but the resulting mapping does not; the model writes results
in submission order. -/
def fetch_alerts_for_counties {P : Type} (env : String → Option P)
    (county_codes : List String) : Except PyErr (List (String × Option P)) :=
  if county_codes = [] then .error .valueError
  else
    .ok (county_codes.foldl (fun d c => dictSet d c (fetch_county_alerts env c).2) [])

theorem lookupA_append {β : Type} (k : String) (l1 l2 : List (String × β)) :
    lookupA k (l1 ++ l2) =
      match lookupA k l1 with
      | some v => some v
      | _ => lookupA k l2 := by
  induction l1 with
  | nil => simp
  | cons p l ih =>
    by_cases h : p.1 = k <;> simp [h, ih]

theorem lookupA_dictSet_self {β : Type} (d : List (String × β)) (k : String) (v : β) :
    lookupA k (dictSet d k v) = some v := by
  unfold dictSet
  by_cases hm : memA k d
  · rw [if_pos hm]
    unfold memA at hm
    induction d with
    | nil => simp at hm
    | cons p l ih =>
      by_cases h : p.1 = k
      · simp [h]
      · simp only [List.map_cons, if_neg h, lookupA_cons, h, if_false]
        apply ih
        simpa [h] using hm
  · rw [if_neg hm, lookupA_append]
    unfold memA at hm
    rcases hl : lookupA k d with _ | w
    · simp
    · rw [hl] at hm; simp at hm

theorem lookupA_map_overwrite {β : Type} (l : List (String × β)) (k t : String) (v : β)
    (ht : t ≠ k) :
    lookupA t (l.map (fun p => if p.1 = k then (k, v) else p)) = lookupA t l := by
  induction l with
  | nil => rfl
  | cons p l ih =>
    rw [List.map_cons]
    by_cases h : p.1 = k
    · rw [if_pos h]
      simp [Ne.symm ht, h, ih]
    · rw [if_neg h]
      by_cases h2 : p.1 = t <;> simp [h2, ih]

theorem lookupA_dictSet_other {β : Type} (d : List (String × β)) (k t : String) (v : β)
    (ht : t ≠ k) : lookupA t (dictSet d k v) = lookupA t d := by
  unfold dictSet
  by_cases hm : memA k d
  · rw [if_pos hm, lookupA_map_overwrite d k t v ht]
  · rw [if_neg hm, lookupA_append]
    rcases hl : lookupA t d with _ | w
    · simp [Ne.symm ht]
    · simp

theorem keysA_map_overwrite {β : Type} (l : List (String × β)) (k : String) (v : β) :
    keysA (l.map (fun p => if p.1 = k then (k, v) else p)) = keysA l := by
  induction l with
  | nil => rfl
  | cons p l ih =>
    rw [List.map_cons]
    by_cases h : p.1 = k
    · rw [if_pos h]
      show k :: keysA (l.map (fun p => if p.1 = k then (k, v) else p)) = p.1 :: keysA l
      rw [ih, h]
    · rw [if_neg h]
      show p.1 :: keysA (l.map (fun p => if p.1 = k then (k, v) else p)) = p.1 :: keysA l
      rw [ih]

theorem keysA_dictSet {β : Type} (d : List (String × β)) (k : String) (v : β) :
    keysA (dictSet d k v) = if memA k d then keysA d else keysA d ++ [k] := by
  unfold dictSet
  by_cases hm : memA k d
  · rw [if_pos hm, if_pos hm, keysA_map_overwrite]
  · rw [if_neg hm, if_neg hm]
    simp [keysA]

theorem nodup_keysA_dictSet {β : Type} (d : List (String × β)) (k : String) (v : β)
    (hnd : (keysA d).Nodup) : (keysA (dictSet d k v)).Nodup := by
  rw [keysA_dictSet]
  by_cases hm : memA k d
  · rwa [if_pos hm]
  · rw [if_neg hm]
    have hk : ¬ k ∈ keysA d := fun h =>
      hm ((lookupA_isSome_iff_mem_keys k d).mpr h)
    simp [List.nodup_append, hnd, hk]

theorem memA_dictSet {β : Type} (d : List (String × β)) (k t : String) (v : β) :
    memA t (dictSet d k v) = true ↔ (t = k ∨ memA t d = true) := by
  by_cases ht : t = k
  · subst ht
    simp [memA, lookupA_dictSet_self]
  · rw [memA, lookupA_dictSet_other d k t v ht]
    simp [memA, ht]

theorem fetch_fold_spec {β : Type} (env : String → β) (county_codes : List String) :
    ∀ acc : List (String × β), (keysA acc).Nodup →
      (keysA (county_codes.foldl (fun d c => dictSet d c (env c)) acc)).Nodup ∧
      (∀ t, memA t (county_codes.foldl (fun d c => dictSet d c (env c)) acc) = true ↔
        (t ∈ county_codes ∨ memA t acc = true)) ∧
      (∀ t, t ∈ county_codes →
        lookupA t (county_codes.foldl (fun d c => dictSet d c (env c)) acc) = some (env t)) ∧
      (∀ t, ¬ t ∈ county_codes →
        lookupA t (county_codes.foldl (fun d c => dictSet d c (env c)) acc) = lookupA t acc) := by
  induction county_codes with
  | nil => exact fun acc hnd => ⟨hnd, by simp, by simp, by simp⟩
  | cons c cs ih =>
    intro acc hnd
    have hnd2 : (keysA (dictSet acc c (env c))).Nodup := nodup_keysA_dictSet acc c (env c) hnd
    rcases ih (dictSet acc c (env c)) hnd2 with ⟨h1, h2, h3, h4⟩
    refine ⟨h1, ?_, ?_, ?_⟩
    · intro t
      rw [List.foldl_cons, h2 t, memA_dictSet]
      constructor
      · rintro (h | h | h)
        · exact Or.inl (List.mem_cons_of_mem _ h)
        · exact Or.inl (h ▸ List.mem_cons_self c cs)
        · exact Or.inr h
      · rintro (h | h)
        · rcases List.mem_cons.mp h with h | h
          · exact Or.inr (Or.inl h)
          · exact Or.inl h
        · exact Or.inr (Or.inr h)
    · intro t htm
      rw [List.foldl_cons]
      by_cases hcs : t ∈ cs
      · exact h3 t hcs
      · have ht : t = c := by
          rcases List.mem_cons.mp htm with h | h
          · exact h
          · exact absurd h hcs
        subst ht
        rw [h4 t hcs, lookupA_dictSet_self]
    · intro t htm
      rw [List.foldl_cons, h4 t (fun h => htm (List.mem_cons_of_mem _ h)),
        lookupA_dictSet_other]
      exact fun h => htm (h ▸ List.mem_cons_self c cs)

/-- Claim C9, counterexample: The claim says `fetch_alerts_for_counties`
returns, without raising, one entry per distinct input county for *every*
list of county codes; on the empty list `ThreadPoolExecutor` is constructed
with `max_workers = min(0, max_workers) = 0`, which raises `ValueError`. -/
theorem fetch_empty_raises :
    fetch_alerts_for_counties (fun _ => (Option.none : Option Unit)) [] =
      .error .valueError := rfl

/-- Claim C9, amended: For every *non-empty* list of county codes,
`fetch_alerts_for_counties` returns, without raising, a mapping with
exactly one entry per distinct input county code; a county whose fetch
fails is mapped to `None` while every other county's entry depends only on
that county's own outcome, so a per-zone failure never aborts the cycle. -/
theorem fetch_alerts_for_counties_spec {P : Type} (env : String → Option P)
    (county_codes : List String) (hne : county_codes ≠ []) :
    ∃ d, fetch_alerts_for_counties env county_codes = .ok d ∧
      (keysA d).Nodup ∧
      (∀ c, memA c d = true ↔ c ∈ county_codes) ∧
      (∀ c, c ∈ county_codes → lookupA c d = some (env c)) := by
  rcases fetch_fold_spec (fun c => env c) county_codes [] (by simp [keysA]) with ⟨h1, h2, h3, h4⟩
  refine ⟨_, by rw [fetch_alerts_for_counties, if_neg hne]; exact rfl, h1, ?_, h3⟩
  intro c
  rw [h2 c]
  simp [memA]

/-- A concrete fetch environment for the C9 witness: the second county's
fetch times out. -/
def wEnv : String → Option Nat :=
  fun c => if c = "ARC002" then Option.none else some 1

/-- Witness discharging the hypotheses of `fetch_alerts_for_counties_spec`
at a concrete input with one failing zone. -/
theorem fetch_alerts_for_counties_spec_witness :
    (["ARC001", "ARC002", "ARC001"] : List String) ≠ [] ∧
    ∃ d, fetch_alerts_for_counties wEnv ["ARC001", "ARC002", "ARC001"] = .ok d ∧
      (keysA d).Nodup ∧
      (∀ c, memA c d = true ↔ c ∈ (["ARC001", "ARC002", "ARC001"] : List String)) ∧
      (∀ c, c ∈ (["ARC001", "ARC002", "ARC001"] : List String) → lookupA c d = some (wEnv c)) :=
  ⟨by decide, fetch_alerts_for_counties_spec wEnv ["ARC001", "ARC002", "ARC001"] (by decide)⟩

/-! ## Concrete cycle inputs shared by the remaining theorems -/

/-- A Tornado Warning record for county ARC001. -/
def tornadoRecord : AlertData :=
  ⟨"ARC001", 4, "Tornado reported", "", "Tornado Warning", Option.none, Option.none⟩

/-- A Flood Warning record for county ARC002. -/
def floodRecord : AlertData :=
  ⟨"ARC002", 4, "Flood reported", "", "Flood Warning", Option.none, Option.none⟩

/-- A JSON-loaded (dict) record for county ARC001, as a previously
persisted snapshot would hold it. -/
def tornadoDictRec : PyRec := .dict [("county_code", "ARC001")]

/-- SayAlert and SayAllClear both enabled (their config defaults). -/
def defaultCfg : AppConfig := ⟨true, true⟩

/-- A state manager over a missing data file. -/
def sm0 : StateManager := ⟨[], false, Option.none⟩

/-! ## C1: the alert decision -/

/-- The claim's emission condition for C1, written from the spec's words:
SayAlert is enabled AND (no prior say-alert snapshot exists OR the change
detector reports at least one changed AlertType OR at least one AlertType
of the current snapshot is new relative to the prior say-alert
snapshot). -/
def claimC1Cond (cfg : AppConfig) (st : RunState) (sorted_alerts : PySnap)
    (changes : Changes) : Prop :=
  cfg.say_alert = true ∧
    (st.last_sayalert = [] ∨ changes.changes_detected ≠ [] ∨
      ∃ t ∈ keysA sorted_alerts, ¬ t ∈ keysA st.last_sayalert)

/-- Cycle state for the C1 counterexample: empty previous snapshot, a
non-empty prior say-alert snapshot holding only the Tornado Warning. -/
def c1St : RunState := ⟨[], [("Tornado Warning", [tornadoDictRec])], []⟩

/-- Current snapshot for the C1 counterexample: the Tornado Warning plus a
wholly new Flood Warning. -/
def c1Snap : PySnap :=
  objSnap [("Tornado Warning", [tornadoRecord]), ("Flood Warning", [floodRecord])]

/-- Claim C1, counterexample: A cycle whose non-empty snapshot contains an
AlertType that is new relative to the prior say-alert snapshot, with
SayAlert enabled and change detection completing with no changed types:
the claim requires an `alert` decision, but the code emits none — the code
only tests `changes_detected` and the truthiness of `last_sayalert`. -/
theorem c1_counterexample :
    c1Snap ≠ [] ∧
    detect_county_changes c1St.last_alerts c1Snap = .ok ⟨[], []⟩ ∧
    claimC1Cond defaultCfg c1St c1Snap ⟨[], []⟩ ∧
    (run defaultCfg okEnv false sm0 c1St c1Snap).2.map (fun r => r.2) = .ok Decision.none := by
  refine ⟨by decide, rfl, ⟨rfl, Or.inr (Or.inr ⟨"Flood Warning", ?_, ?_⟩)⟩, rfl⟩
  · decide
  · decide

/-- Claim C1, amended: For every polling cycle whose filtered snapshot is
non-empty and whose change detection completes, the core emits the `alert`
decision iff SayAlert is enabled AND (the change detector reported at
least one changed AlertType OR the prior say-alert snapshot is empty or
absent); newness relative to the prior say-alert snapshot is not
considered. When the decision is emitted and the announcement call
returns, `last_sayalert` is set to the current snapshot. -/
theorem c1_amended (cfg : AppConfig) (env : EffEnv) (ioFails : Bool) (sm : StateManager)
    (st : RunState) (sorted_alerts : PySnap) (changes : Changes)
    (hne : sorted_alerts ≠ [])
    (hdet : detect_county_changes st.last_alerts sorted_alerts = .ok changes) :
    ((run cfg env ioFails sm st sorted_alerts).2.map (fun r => r.2) = .ok Decision.alert ↔
      (cfg.say_alert = true ∧ (changes.changes_detected ≠ [] ∨ st.last_sayalert = []))) ∧
    (env.sayAlertsFails = false →
      ∀ st2, (run cfg env ioFails sm st sorted_alerts).2 = .ok (st2, Decision.alert) →
        st2.last_sayalert = sorted_alerts) := by
  simp only [run, handle_active_alerts, hdet]
  rcases cfg with ⟨sa, sc⟩
  cases sa
  · simp [hne, Except.map]
  · by_cases hc : changes.changes_detected ≠ [] ∨ st.last_sayalert = []
    · by_cases hf : env.sayAlertsFails = true
      · simp [hne, hc, hf, Except.map]
      · simp [hne, hc, hf, Except.map]
    · simp [hne, hc, Except.map]

/-- Witness for `c1_amended` at a concrete cycle: cold start (empty
previous state), one Tornado Warning in the snapshot, SayAlert enabled —
the decision is emitted and `last_sayalert` is recorded. -/
theorem c1_amended_witness :
    (objSnap [("Tornado Warning", [tornadoRecord])] ≠ []) ∧
    detect_county_changes (RunState.last_alerts ⟨[], [], []⟩)
      (objSnap [("Tornado Warning", [tornadoRecord])]) = .ok ⟨[], []⟩ ∧
    (((run defaultCfg okEnv false sm0 ⟨[], [], []⟩
        (objSnap [("Tornado Warning", [tornadoRecord])])).2.map (fun r => r.2) =
          .ok Decision.alert ↔
      (defaultCfg.say_alert = true ∧
        ((Changes.changes_detected ⟨[], []⟩) ≠ [] ∨ (RunState.last_sayalert ⟨[], [], []⟩) = []))) ∧
    ((okEnv.sayAlertsFails = false →
      ∀ st2, (run defaultCfg okEnv false sm0 ⟨[], [], []⟩
          (objSnap [("Tornado Warning", [tornadoRecord])])).2 = .ok (st2, Decision.alert) →
        st2.last_sayalert = objSnap [("Tornado Warning", [tornadoRecord])]))) :=
  ⟨by decide, rfl,
    c1_amended defaultCfg okEnv false sm0 ⟨[], [], []⟩
      (objSnap [("Tornado Warning", [tornadoRecord])]) ⟨[], []⟩ (by decide) rfl⟩

/-! ## C2: the all-clear decision -/

theorem counties_go_ok (l : List PyRec) (h : ∀ r ∈ l, recOk r = true) :
    ∀ acc, ∃ cs, counties_go acc l = .ok cs := by
  induction l with
  | nil => exact fun acc => ⟨acc, rfl⟩
  | cons r rest ih =>
    intro acc
    have hr : recOk r = true := h r (by simp)
    unfold recOk at hr
    rcases hc : subscrCounty r with e | c
    · rw [hc] at hr; simp at hr
    · rcases ih (fun x hx => h x (by simp [hx])) (acc ++ [c]) with ⟨cs, hcs⟩
      exact ⟨cs, by rw [counties_go, hc]; exact hcs⟩

theorem extract_counties_ok (s : PySnap) (h : ∀ p ∈ s, ∀ r ∈ p.2, recOk r = true) :
    ∃ cs, extract_counties s = .ok cs := by
  unfold extract_counties
  suffices hgen : ∀ acc, ∃ cs, s.foldlM (fun acc p => counties_go acc p.2) acc = .ok cs by
    exact hgen []
  induction s with
  | nil => exact fun acc => ⟨acc, rfl⟩
  | cons p rest ih =>
    intro acc
    rcases counties_go_ok p.2 (h p (by simp)) acc with ⟨cs1, hcs1⟩
    rcases ih (fun q hq => h q (by simp [hq])) cs1 with ⟨cs2, hcs2⟩
    refine ⟨cs2, ?_⟩
    rw [List.foldlM_cons, hcs1]
    exact hcs2

theorem handle_all_clear_emits (cfg : AppConfig) (env : EffEnv) (st : RunState)
    (old_alerts : PySnap) :
    (handle_all_clear cfg env st old_alerts).2 = true ↔
      (old_alerts ≠ [] ∧ cfg.say_all_clear = true) := by
  unfold handle_all_clear
  by_cases h : old_alerts ≠ [] ∧ cfg.say_all_clear = true
  · rw [if_pos h]
    by_cases hf : env.sayAllClearFails = true
    · simp [hf, h]
    · rcases hx : extract_counties old_alerts with e | cs
      · simp [hf, hx, h]
      · by_cases hn : env.notifyAllClearFails = true
        · simp [hf, hx, hn, h]
        · simp [hf, hx, hn, h]
  · rw [if_neg h]
    simp [h]

theorem handle_all_clear_sayalert (cfg : AppConfig) (env : EffEnv) (st : RunState)
    (old_alerts : PySnap) :
    (handle_all_clear cfg env st old_alerts).1.last_sayalert = st.last_sayalert := by
  unfold handle_all_clear
  by_cases h : old_alerts ≠ [] ∧ cfg.say_all_clear = true
  · rw [if_pos h]
    by_cases hf : env.sayAllClearFails = true
    · simp [hf]
    · rcases hx : extract_counties old_alerts with e | cs
      · simp [hf, hx]
      · by_cases hn : env.notifyAllClearFails = true
        · simp [hf, hx, hn]
        · simp [hf, hx, hn]
  · rw [if_neg h]

theorem handle_all_clear_sets_allclear (cfg : AppConfig) (env : EffEnv) (st : RunState)
    (old_alerts : PySnap) (hf : env.sayAllClearFails = false)
    (hn : env.notifyAllClearFails = false)
    (hok : ∀ p ∈ old_alerts, ∀ r ∈ p.2, recOk r = true)
    (h : old_alerts ≠ [] ∧ cfg.say_all_clear = true) :
    (handle_all_clear cfg env st old_alerts).1.last_allclear = [] := by
  unfold handle_all_clear
  rw [if_pos h]
  rcases extract_counties_ok old_alerts hok with ⟨cs, hcs⟩
  simp [hf, hcs, hn]

/-- Model of `run` on the empty snapshot, fully reduced. -/
theorem run_empty_snapshot (cfg : AppConfig) (env : EffEnv) (ioFails : Bool)
    (sm : StateManager) (st : RunState) :
    run cfg env ioFails sm st [] =
      (cleanup ioFails (save_state (stateDictOf
          { (handle_all_clear cfg env st st.last_alerts).1 with last_alerts := [] }) sm),
       .ok ({ (handle_all_clear cfg env st st.last_alerts).1 with last_alerts := [] },
            if (handle_all_clear cfg env st st.last_alerts).2 then Decision.allClear
            else Decision.none)) := by
  simp [run, detect_county_changes]

/-- Claim C2, amended: An `all-clear` decision is emitted iff SayAllClear is
enabled, the current filtered snapshot is empty, and the previous cycle's
`lastAlerts` snapshot is non-empty; it fires exactly once per
non-empty→empty transition (a repeated empty snapshot emits no decision);
firing it sets the `lastAllClear` marker to the empty dict (when the
announcement and notification calls return) and leaves `lastSayAlert`
unchanged — it is NOT cleared. -/
theorem c2_amended (cfg : AppConfig) (env : EffEnv) (ioFails : Bool) (sm : StateManager)
    (st : RunState) :
    ((run cfg env ioFails sm st []).2.map (fun r => r.2) = .ok Decision.allClear ↔
      (cfg.say_all_clear = true ∧ st.last_alerts ≠ [])) ∧
    (∀ snap, snap ≠ [] →
      (run cfg env ioFails sm st snap).2.map (fun r => r.2) ≠ .ok Decision.allClear) ∧
    (∀ st2 d, (run cfg env ioFails sm st []).2 = .ok (st2, d) →
      st2.last_sayalert = st.last_sayalert ∧ st2.last_alerts = []) ∧
    (env.sayAllClearFails = false → env.notifyAllClearFails = false →
      (∀ p ∈ st.last_alerts, ∀ r ∈ p.2, recOk r = true) →
      ∀ st2, (run cfg env ioFails sm st []).2 = .ok (st2, Decision.allClear) →
        st2.last_allclear = []) ∧
    (∀ st2 d sm2, run cfg env ioFails sm st [] = (sm2, .ok (st2, d)) →
      (run cfg env ioFails sm2 st2 []).2.map (fun r => r.2) = .ok Decision.none) := by
  refine ⟨?_, ?_, ?_, ?_, ?_⟩
  · rw [run_empty_snapshot]
    by_cases h : st.last_alerts ≠ [] ∧ cfg.say_all_clear = true
    · rw [if_pos ((handle_all_clear_emits cfg env st st.last_alerts).mpr h)]
      simp [Except.map, h.1, h.2]
    · have hb : (handle_all_clear cfg env st st.last_alerts).2 = false := by
        rcases hv : (handle_all_clear cfg env st st.last_alerts).2 with _ | _
        · rfl
        · exact absurd ((handle_all_clear_emits cfg env st st.last_alerts).mp hv) h
      rw [hb]
      simp only [Bool.false_eq_true, if_false, Except.map]
      constructor
      · intro hx
        simp at hx
      · rintro ⟨h1, h2⟩
        exact absurd ⟨h2, h1⟩ h
  · intro snap hsnap
    simp only [run]
    rcases hd : detect_county_changes st.last_alerts snap with e | changes
    · simp [Except.map]
    · simp only [if_pos hsnap, Except.map]
      rcases hv : (handle_active_alerts cfg env st snap changes).2 with _ | _ <;> simp [hv]

  · intro st2 d hrun
    rw [run_empty_snapshot] at hrun
    simp only [Except.ok.injEq, Prod.mk.injEq] at hrun
    rw [← hrun.1]
    exact ⟨handle_all_clear_sayalert cfg env st st.last_alerts, rfl⟩
  · intro hf hn hok st2 hrun
    rw [run_empty_snapshot] at hrun
    simp only [Except.ok.injEq, Prod.mk.injEq] at hrun
    have hem : (handle_all_clear cfg env st st.last_alerts).2 = true := by
      rcases hv : (handle_all_clear cfg env st st.last_alerts).2 with _ | _
      · rw [hv] at hrun
        simp at hrun
      · rfl
    have h := (handle_all_clear_emits cfg env st st.last_alerts).mp hem
    rw [← hrun.1]
    exact handle_all_clear_sets_allclear cfg env st st.last_alerts hf hn hok h
  · intro st2 d sm2 hrun
    rw [run_empty_snapshot] at hrun
    have hst2 : st2.last_alerts = [] := by
      have := congrArg (fun x => x.2) hrun
      simp only [Except.ok.injEq, Prod.mk.injEq] at this
      rw [← this.1]
    rw [run_empty_snapshot]
    have hb : (handle_all_clear cfg env st2 st2.last_alerts).2 = false := by
      rcases hv : (handle_all_clear cfg env st2 st2.last_alerts).2 with _ | _
      · rfl
      · have := (handle_all_clear_emits cfg env st2 st2.last_alerts).mp hv
        exact absurd hst2 this.1
    rw [hb]
    simp [Except.map]

/-- Cycle state for the C2 counterexample: a previously persisted Tornado
Warning in both `last_alerts` and `last_sayalert`. -/
def c2St : RunState :=
  ⟨[("Tornado Warning", [tornadoDictRec])], [("Tornado Warning", [tornadoDictRec])], []⟩

/-- Claim C2, counterexample: A non-empty→empty transition with SayAllClear
enabled emits the all-clear decision, but `lastSayAlert` is NOT cleared:
the code sets `last_allclear` to the empty dict instead, leaving
`last_sayalert` as it was. -/
theorem c2_counterexample :
    (run defaultCfg okEnv false sm0 c2St []).2 =
      .ok (⟨[], [("Tornado Warning", [tornadoDictRec])], []⟩, Decision.allClear) ∧
    ([("Tornado Warning", [tornadoDictRec])] : PySnap) ≠ [] :=
  ⟨rfl, by decide⟩

/-- Witness applying `c2_amended` at a concrete transition: the all-clear
decision fires. -/
theorem c2_amended_witness :
    (run defaultCfg okEnv false sm0 c2St []).2.map (fun r => r.2) = .ok Decision.allClear :=
  (c2_amended defaultCfg okEnv false sm0 c2St).1.mpr ⟨rfl, by decide⟩

/-! ## C4: flush failure handling -/

theorem cleanup_ioFails (sm : StateManager) (h : sm.dirty = true) : cleanup true sm = sm := by
  unfold cleanup flush_state
  rw [h]
  rcases hj : jsonableDict sm.cache with _ | _ <;> simp [hj]

/-- Whenever change detection completes, `run` returns successfully with
`last_alerts` set to the cycle's snapshot, the full state dict saved, and
`cleanup` applied — for every effect environment and flush outcome. -/
theorem run_shape (cfg : AppConfig) (env : EffEnv) (ioFails : Bool)
    (sm : StateManager) (st : RunState) (sorted_alerts : PySnap) (changes : Changes)
    (hdet : detect_county_changes st.last_alerts sorted_alerts = .ok changes) :
    ∃ st2 d, run cfg env ioFails sm st sorted_alerts =
      (cleanup ioFails (save_state (stateDictOf st2) sm), .ok (st2, d)) ∧
      st2.last_alerts = sorted_alerts := by
  simp only [run, hdet]
  exact ⟨_, _, rfl, rfl⟩

/-- Claim C4, counterexample: With the state dirty and the disk write
failing, `run` completes without error: the `FileIOError` raised by
`flush_state` is caught inside `cleanup`, so the failure does NOT
propagate to `run`'s caller; the disk keeps its stale contents and the
dirty flag stays set. -/
theorem c4_counterexample :
    (run defaultCfg okEnv true ⟨[], false, some defaultState⟩ ⟨[], [], []⟩ []).2 =
      .ok (⟨[], [], []⟩, Decision.none) ∧
    (run defaultCfg okEnv true ⟨[], false, some defaultState⟩ ⟨[], [], []⟩ []).1.disk =
      some defaultState ∧
    (run defaultCfg okEnv true ⟨[], false, some defaultState⟩ ⟨[], [], []⟩ []).1.dirty = true :=
  ⟨rfl, rfl, rfl⟩

/-- Claim C4, amended: If flushing fails, the `FileIOError` is caught and
logged inside `cleanup()` and never propagates out of `run()`: the cycle
completes successfully, the on-disk state is unchanged (stale), and the
cache stays dirty — the next cycle will diff against the stale persisted
snapshot rather than observe an error. -/
theorem c4_amended (cfg : AppConfig) (env : EffEnv) (sm : StateManager) (st : RunState)
    (sorted_alerts : PySnap) (changes : Changes)
    (hdet : detect_county_changes st.last_alerts sorted_alerts = .ok changes) :
    ∃ st2 d, run cfg env true sm st sorted_alerts =
      (save_state (stateDictOf st2) sm, .ok (st2, d)) ∧
      (save_state (stateDictOf st2) sm).disk = sm.disk ∧
      (save_state (stateDictOf st2) sm).dirty = true := by
  rcases run_shape cfg env true sm st sorted_alerts changes hdet with ⟨st2, d, heq, -⟩
  have hcl : cleanup true (save_state (stateDictOf st2) sm) = save_state (stateDictOf st2) sm :=
    cleanup_ioFails _ rfl
  refine ⟨st2, d, ?_, rfl, rfl⟩
  rw [heq, hcl]

/-- Witness applying `c4_amended` at a concrete cycle. -/
theorem c4_amended_witness :
    detect_county_changes (RunState.last_alerts ⟨[], [], []⟩) [] = .ok ⟨[], []⟩ ∧
    ∃ st2 d, run defaultCfg okEnv true sm0 ⟨[], [], []⟩ [] =
      (save_state (stateDictOf st2) sm0, .ok (st2, d)) ∧
      (save_state (stateDictOf st2) sm0).disk = sm0.disk ∧
      (save_state (stateDictOf st2) sm0).dirty = true :=
  ⟨rfl, c4_amended defaultCfg okEnv sm0 ⟨[], [], []⟩ [] ⟨[], []⟩ rfl⟩

/-! ## C3 and C5: persistence of the cycle's snapshot -/

/-- The in-memory snapshot of a cycle that saw one Tornado Warning. -/
def tornadoSnap : PySnap := objSnap [("Tornado Warning", [tornadoRecord])]

/-- Claim C3, code bug: Two consecutive processes receiving identical feed
data (one Tornado Warning) both emit the `alert` decision: the first
cycle's flush fails — `json.dump` raises `TypeError` on the stored
dataclass instances, re-raised as `FileIOError` and swallowed by
`cleanup` — so the disk stays empty and the second process cold-starts and
announces again. -/
theorem c3_code_bug_eval :
    (process defaultCfg okEnv false Option.none tornadoSnap).2 = .ok Decision.alert ∧
    (process defaultCfg okEnv false Option.none tornadoSnap).1 = Option.none ∧
    (process defaultCfg okEnv false
        (process defaultCfg okEnv false Option.none tornadoSnap).1 tornadoSnap).2 =
      .ok Decision.alert :=
  ⟨rfl, rfl, rfl⟩

/-- Claim C5, code bug: The actual cycle's outgoing snapshot holds
`AlertData` dataclass instances, which is outside the claim's
maps/lists/strings/numbers hypothesis: saving a state containing it and
flushing raises (`json.dump` `TypeError`, re-raised as `FileIOError`), the
disk is left unchanged, and the next load returns the stale previous
state — the outgoing snapshot is NOT read back as the next cycle's
previous snapshot. -/
theorem c5_code_bug_eval :
    flush_state false (save_state (stateDictOf ⟨tornadoSnap, [], []⟩)
        ⟨[], false, some defaultState⟩) = .error .fileIOError ∧
    (cleanup false (save_state (stateDictOf ⟨tornadoSnap, [], []⟩)
        ⟨[], false, some defaultState⟩)).disk = some defaultState ∧
    (load_state ⟨[], false, (cleanup false (save_state (stateDictOf ⟨tornadoSnap, [], []⟩)
        ⟨[], false, some defaultState⟩)).disk⟩).1 = defaultState ∧
    lookupA "last_alerts" defaultState = some (PyVal.dict []) ∧
    pyOfSnap tornadoSnap =
      PyVal.dict [("Tornado Warning", PyVal.list [PyVal.obj tornadoRecord])] :=
  ⟨rfl, rfl, rfl, rfl, rfl⟩

theorem convertDict_id (d : List (String × PyVal)) (h : jsonableDict d = true) :
    d.map (fun p => (p.1, match p.2 with | .set l => PyVal.list l | v => v)) = d := by
  induction d with
  | nil => rfl
  | cons p rest ih =>
    rw [jsonableDict] at h
    have h12 : jsonable p.2 = true ∧ jsonableDict rest = true := by simpa using h
    rcases h12 with ⟨h1, h2⟩
    rw [List.map_cons, ih h2]
    congr 1
    rcases p with ⟨k, v⟩
    cases v
    case set l => simp [jsonable] at h1
    all_goals rfl

theorem convertValue_jsonable {v : PyVal} (h : jsonable v = true) : convertValue v = v := by
  cases v
  case list l => rfl
  case dict d =>
    rw [convertValue]
    rw [jsonable] at h
    rw [convertDict_id d h]
  case set l => simp [jsonable] at h
  case obj a => simp [jsonable] at h
  all_goals rfl

theorem convertState_id (state : List (String × PyVal)) (h : jsonableDict state = true) :
    state.map (fun p => (p.1, convertValue p.2)) = state := by
  induction state with
  | nil => rfl
  | cons p rest ih =>
    rw [jsonableDict] at h
    have h12 : jsonable p.2 = true ∧ jsonableDict rest = true := by simpa using h
    rcases h12 with ⟨h1, h2⟩
    rw [List.map_cons, ih h2, convertValue_jsonable h1]

/-- The save→flush→load round trip for state values made of nested maps,
lists, strings and numbers only (no sets, no dataclass instances): the
loaded state — in this process or a later one starting from the same data
file — equals the saved one. This is the true universal half of claim C5;
the actual cycle's snapshot violates its hypothesis
(`c5_code_bug_eval`). -/
theorem save_flush_load_roundtrip (state : List (String × PyVal)) (sm : StateManager)
    (h : jsonableDict state = true) :
    ∃ sm2, flush_state false (save_state state sm) = .ok sm2 ∧
      (load_state sm2).1 = state ∧
      (load_state ⟨[], false, sm2.disk⟩).1 = state := by
  have hconv : (save_state state sm).cache = state := convertState_id state h
  refine ⟨⟨state, false, some state⟩, ?_, by simp [load_state], by simp [load_state]⟩
  unfold flush_state
  rw [if_neg (by simp [save_state]), hconv, if_neg (by simp [h])]
  rfl

/-! ## C10: announcement failures never escape `run` -/

/-- The environment in which every external call raises. -/
def failEnv : EffEnv := ⟨true, true, true, true⟩

/-- Claim C10: Exceptions raised while announcing alerts, announcing
all-clear, or sending notifications are caught inside the handlers: for
every effect environment, `run` (with change detection completing) returns
successfully, sets `state["last_alerts"]` to the current sorted snapshot
and saves the state, so an announcement failure never prevents the cycle's
snapshot from becoming the cached state that `cleanup` flushes. -/
theorem c10_announcement_failures_harmless (cfg : AppConfig) (env : EffEnv) (ioFails : Bool)
    (sm : StateManager) (st : RunState) (sorted_alerts : PySnap) (changes : Changes)
    (hdet : detect_county_changes st.last_alerts sorted_alerts = .ok changes) :
    ∃ st2 d, run cfg env ioFails sm st sorted_alerts =
      (cleanup ioFails (save_state (stateDictOf st2) sm), .ok (st2, d)) ∧
      st2.last_alerts = sorted_alerts :=
  run_shape cfg env ioFails sm st sorted_alerts changes hdet

/-- Witness applying `c10_announcement_failures_harmless` with every
external call failing. -/
theorem c10_witness :
    detect_county_changes (RunState.last_alerts ⟨[], [], []⟩) tornadoSnap = .ok ⟨[], []⟩ ∧
    ∃ st2 d, run defaultCfg failEnv false sm0 ⟨[], [], []⟩ tornadoSnap =
      (cleanup false (save_state (stateDictOf st2) sm0), .ok (st2, d)) ∧
      st2.last_alerts = tornadoSnap :=
  ⟨rfl, c10_announcement_failures_harmless defaultCfg failEnv false sm0 ⟨[], [], []⟩
    tornadoSnap ⟨[], []⟩ rfl⟩

/-! ## Remaining witnesses -/

/-- Concrete mapping for the C6 witness: two severity-2 advisories around
one severity-4 warning, exercising both the descending order and the
first-seen tie-break. -/
def c6Alerts : Snapshot :=
  [("Dense Fog Advisory", [⟨"ARC001", 2, "", "", "Dense Fog Advisory", Option.none, Option.none⟩]),
   ("Tornado Warning", [tornadoRecord]),
   ("Heat Advisory", [⟨"ARC002", 2, "", "", "Heat Advisory", Option.none, Option.none⟩])]

/-- Witness discharging the hypotheses of `sort_alerts_by_severity_spec`
at `c6Alerts`. -/
theorem sort_alerts_by_severity_spec_witness :
    (keysA c6Alerts).Nodup ∧ (∀ p ∈ c6Alerts, p.2 ≠ []) ∧
    ((∀ t, lookupA t (sort_alerts_by_severity c6Alerts) = lookupA t c6Alerts) ∧
     (keysA (sort_alerts_by_severity c6Alerts)).Perm (keysA c6Alerts) ∧
     (sort_alerts_by_severity c6Alerts).Sorted (fun p q => maxSeverity q.2 ≤ maxSeverity p.2) ∧
     (∀ n, ((sort_alerts_by_severity c6Alerts).filter (fun p => maxSeverity p.2 = n)).map Prod.fst =
        (c6Alerts.filter (fun p => maxSeverity p.2 = n)).map Prod.fst)) :=
  ⟨by decide, by decide, sort_alerts_by_severity_spec c6Alerts (by decide) (by decide)⟩

/-- Previous snapshot for the C8 witness (JSON-loaded dict records). -/
def c8Old : PySnap :=
  [("Tornado Warning", [tornadoDictRec]),
   ("Flood Warning", [.dict [("county_code", "ARC002")]])]

/-- Current snapshot for the C8 witness: the Tornado Warning gained
ARC003, the Flood Warning disappeared, a Heat Advisory appeared. -/
def c8New : PySnap :=
  [("Tornado Warning", [tornadoDictRec, .dict [("county_code", "ARC003")]]),
   ("Heat Advisory", [tornadoDictRec])]

/-- Witness discharging the hypotheses of `detect_county_changes_spec` at
`c8Old`/`c8New`. -/
theorem detect_county_changes_spec_witness :
    snapOk c8Old = true ∧ snapOk c8New = true ∧ (keysA c8New).Nodup ∧
    ∃ ch, detect_county_changes c8Old c8New = .ok ch ∧
      ∀ t : String,
        t ∈ ch.changes_detected.map ChangeEntry.name ↔
          (memA t c8Old = true ∧ memA t c8New = true ∧
            (countyFinset ((lookupA t c8New).getD []) \
                countyFinset ((lookupA t c8Old).getD []) ≠ ∅ ∨
             countyFinset ((lookupA t c8Old).getD []) \
                countyFinset ((lookupA t c8New).getD []) ≠ ∅)) :=
  ⟨by decide, by decide, by decide,
    detect_county_changes_spec c8Old c8New (by decide) (by decide) (by decide)⟩

end SkywarnPlus
